import Mathlib

/-!
Shallow embedding of `src/financial_tools.py`: five financial tools that
parse a string query, consult an external market-data collaborator, do
exact arithmetic and threshold lookups, and return one immutable result
record whose `error` field is populated on every failure path.

Modelling conventions:
* Python floats are modelled as `ℚ`; `round(x, n)` as half-up rounding on `ℚ`
  (CPython rounds half-to-even on binary floats; the two agree away from
  exact ties, and no input exercised below sits on a tie).
* The external `yfinance` collaborator is a parameter returning
  `Except String _`: `Except.error e` models the Python call raising an
  exception with message `e`, which the tool's blanket `except` catches.
* The two floating-real computations with no exact rational value — the CAGR
  real exponentiation `(end/start) ** (1/years)` and the annualized
  volatility `std(daily returns) * sqrt(252)` — are abstracted as function
  parameters `cagrF`, `volF`; likewise `**` in the compound-growth tool is a
  parameter `powF`. No claim below constrains their values beyond integral
  exponents, where `qpow` gives the exact value.
* Each tool is a total Lean function: the Python `try/except` boundary is
  modelled by the explicit error branches, so "the call never raises" becomes
  totality of the embedding plus the shape of the error records.
-/

/- Batteries seals the core `Rat` operations against accidental unfolding.
The concrete evaluations below are settled by definitional computation (the
kernel ignores reducibility annotations; this only lets the `decide`
front-end's reduction see the same definitions the kernel does). -/
set_option allowUnsafeReducibility true
attribute [local semireducible] Rat.mul Rat.inv Rat.add Rat.sub Rat.ofScientific

/-! ## Python string primitives (str.split, str.strip, str.upper, str.lower) -/

/-- Python whitespace for `str.split()` / `str.strip()`. -/
def pyIsSpace (c : Char) : Bool :=
  c == ' ' || c == '\t' || c == '\n' || c == '\r' || c == '\x0b' || c == '\x0c'

/-- ASCII upper-casing of one character, as `str.upper()` acts on ASCII. -/
def pyToUpperChar (c : Char) : Char :=
  if 'a' ≤ c ∧ c ≤ 'z' then Char.ofNat (c.toNat - 32) else c

/-- ASCII lower-casing of one character, as `str.lower()` acts on ASCII. -/
def pyToLowerChar (c : Char) : Char :=
  if 'A' ≤ c ∧ c ≤ 'Z' then Char.ofNat (c.toNat + 32) else c

/-- Python `str.upper()`. -/
def pyUpper (s : String) : String := String.mk (s.data.map pyToUpperChar)

/-- Python `str.lower()`. -/
def pyLower (s : String) : String := String.mk (s.data.map pyToLowerChar)

/-- Python `str.strip()`: drop leading and trailing whitespace. -/
def pyStrip (s : String) : String :=
  String.mk (((s.data.dropWhile pyIsSpace).reverse.dropWhile pyIsSpace).reverse)

/-- Worker for `pySplit`: current partial token is accumulated reversed. -/
def pySplitAux : List Char → List Char → List String
  | [], acc => if acc = [] then [] else [String.mk acc.reverse]
  | c :: rest, acc =>
    if pyIsSpace c then
      if acc = [] then pySplitAux rest []
      else String.mk acc.reverse :: pySplitAux rest []
    else pySplitAux rest (c :: acc)

/-- Python `str.split()` with no separator: split on whitespace runs,
no empty tokens. -/
def pySplit (s : String) : List String := pySplitAux s.data []

/-! ## Python float parsing and formatting -/

/-- Numeric value of a list of decimal digit characters. -/
def digitsVal (l : List Char) : ℕ :=
  l.foldl (fun n c => n * 10 + (c.toNat - 48)) 0

/-- Python `float(tok)` on a plain decimal literal: optional sign, integer
digits, optional point and fraction digits, at least one digit in all.
(Exponent forms and inf/nan, which `float` also accepts, are not exercised
by the repository's query formats.) -/
def parseFloat (s : String) : Option ℚ :=
  let t := pyStrip s
  let sd : ℚ × List Char :=
    match t.data with
    | '-' :: r => (-1, r)
    | '+' :: r => (1, r)
    | r => (1, r)
  let intPart := sd.2.takeWhile Char.isDigit
  let rest := sd.2.drop intPart.length
  match rest with
  | [] => if intPart = [] then none else some (sd.1 * digitsVal intPart)
  | '.' :: frac =>
    if frac.all Char.isDigit ∧ (intPart ≠ [] ∨ frac ≠ []) then
      some (sd.1 * ((digitsVal intPart : ℚ) + (digitsVal frac : ℚ) / 10 ^ frac.length))
    else none
  | _ => none

/-- Python `round(x, n)` modelled on `ℚ` (half-up; see the header note). -/
def roundTo (n : ℕ) (q : ℚ) : ℚ := (round (q * 10 ^ n) : ℤ) / 10 ^ n

/-- Python message of the `ValueError` raised by `float(tok)` on a bad token. -/
def floatError (tok : String) : String :=
  "could not convert string to float: \x27" ++ tok ++ "\x27"

/-- Python `a or b` on optional floats: `None` and `0.0` are falsy. -/
def pyOrQ (a b : Option ℚ) : Option ℚ :=
  match a with
  | some x => if x = 0 then b else some x
  | none => b

/-- Python truthiness of an optional float. -/
def pyTruthyQ : Option ℚ → Bool
  | some x => if x = 0 then false else true
  | none => false

/-- Python truthiness of an optional integer. -/
def pyTruthyZ : Option ℤ → Bool
  | some x => if x = 0 then false else true
  | none => false

/-- Python `a or b` on optional strings: `None` and `""` are falsy. -/
def pyOrStr (a b : Option String) : Option String :=
  match a with
  | some x => if x = "" then b else some x
  | none => b

/-- Thousands grouping of a reversed digit list, for Python's `{:,}`. -/
def group3 : List Char → List Char
  | d1 :: d2 :: d3 :: d4 :: rest => d1 :: d2 :: d3 :: ',' :: group3 (d4 :: rest)
  | l => l

/-- Python `f"{n:,}"` for an integer. -/
def fmtComma (n : ℤ) : String :=
  (if n < 0 then "-" else "") ++
    String.mk (group3 (toString n.natAbs).data.reverse).reverse

/-- Two decimal digits with a leading zero. -/
def frac2 (k : ℕ) : String := (if k < 10 then "0" else "") ++ toString k

/-- Python `f"{x:.2f}"` (see the header note on tie rounding). -/
def fmt2 (q : ℚ) : String :=
  let c := round (q * 100)
  (if c < 0 then "-" else "") ++ toString (c.natAbs / 100) ++ "." ++ frac2 (c.natAbs % 100)

/-- Python `f"{x:,.2f}"`: two decimals with thousands grouping. -/
def fmtComma2 (q : ℚ) : String :=
  let c := round (q * 100)
  (if c < 0 then "-" else "") ++
    String.mk (group3 (toString (c.natAbs / 100)).data.reverse).reverse ++
    "." ++ frac2 (c.natAbs % 100)

/-- Fraction digits of `0 ≤ q < 1`, up to a fuel bound, for `pyStr`. -/
def fracDigits : ℕ → ℚ → String
  | 0, _ => ""
  | k + 1, q =>
    if q = 0 then "" else toString (⌊q * 10⌋.natAbs) ++ fracDigits k (q * 10 - ⌊q * 10⌋)

/-- Python `str()` of a float, approximated: integral values print with `.0`,
others with their decimal expansion (finite for every value built here). -/
def pyStr (q : ℚ) : String :=
  (if q < 0 then "-" else "") ++ toString ⌊|q|⌋.natAbs ++ "." ++
    (if |q| - ⌊|q|⌋ = 0 then "0" else fracDigits 17 (|q| - ⌊|q|⌋))

/-! ## Result records (the Pydantic models) -/

/-- `StockPriceData`: stock price and key metrics. -/
structure StockPriceData where
  symbol : String
  current_price : Option ℚ
  market_cap : Option ℤ
  pe_ratio : Option ℚ
  week_52_high : Option ℚ
  week_52_low : Option ℚ
  formatted_summary : String
  error : Option String := none
  deriving DecidableEq

/-- `CompanyInfo`: company information and fundamentals. -/
structure CompanyInfo where
  symbol : String
  name : Option String
  sector : Option String
  industry : Option String
  country : Option String
  employees : Option ℤ
  business_summary : Option String
  error : Option String := none
  deriving DecidableEq

/-- `FinancialHistoryResult`: historical performance analysis. -/
structure FinancialHistoryResult where
  symbol : String
  period : String
  start_price : Option ℚ := none
  end_price : Option ℚ := none
  total_return_percent : Option ℚ := none
  cagr_percent : Option ℚ := none
  volatility_percent : Option ℚ := none
  max_drawdown_percent : Option ℚ := none
  trading_days : Option ℕ := none
  formatted_summary : Option String := none
  error : Option String := none
  deriving DecidableEq

/-- `CompoundGrowthResult`: compound growth calculation results. -/
structure CompoundGrowthResult where
  principal : ℚ
  annual_rate : ℚ
  years : ℚ
  future_value : ℚ
  total_growth : ℚ
  total_return_percent : ℚ
  formatted_summary : String
  error : Option String := none
  deriving DecidableEq

/-- `FinancialRatioResult`: financial ratio calculation and interpretation. -/
structure FinancialRatioResult where
  numerator : ℚ
  denominator : ℚ
  ratio_type : String
  ratio_value : Option ℚ := none
  description : Option String := none
  interpretation : Option String := none
  context : Option String := none
  formatted_summary : Option String := none
  error : Option String := none
  deriving DecidableEq

/-! ## Upstream quote records (the yfinance `Ticker.info` fields the code reads) -/

/-- The quote fields `get_stock_price` reads from `ticker.info`; a missing
dictionary key is `none`.  `marketCap` is an integer upstream, so the
source's truthiness-guarded `int(market_cap)` is the identity on it. -/
structure QuoteInfo where
  currentPrice : Option ℚ := none
  regularMarketPrice : Option ℚ := none
  marketCap : Option ℤ := none
  trailingPE : Option ℚ := none
  forwardPE : Option ℚ := none
  fiftyTwoWeekHigh : Option ℚ := none
  fiftyTwoWeekLow : Option ℚ := none
  deriving DecidableEq

/-- The descriptive fields `get_company_info` reads from `ticker.info`. -/
structure CompanyQuote where
  longName : Option String := none
  shortName : Option String := none
  sector : Option String := none
  industry : Option String := none
  country : Option String := none
  fullTimeEmployees : Option ℤ := none
  longBusinessSummary : Option String := none
  deriving DecidableEq

/-! ## The tools -/

/-- `get_stock_price`: current stock price and key metrics.  `fetchInfo`
models `yf.Ticker(symbol).info`; `Except.error e` is a raised exception
caught by the tool's `except` clause. -/
def get_stock_price (fetchInfo : String → Except String QuoteInfo)
    (symbol0 : String) : StockPriceData :=
  match fetchInfo (pyStrip (pyUpper symbol0)) with
  | .error e =>
    { symbol := pyStrip (pyUpper symbol0), current_price := none, market_cap := none,
      pe_ratio := none, week_52_high := none, week_52_low := none,
      formatted_summary := "Error retrieving stock data for " ++ pyStrip (pyUpper symbol0)
        ++ ": " ++ e,
      error := some e }
  | .ok info =>
    let current_price := pyOrQ info.currentPrice info.regularMarketPrice
    let market_cap := info.marketCap
    let pe_ratio := pyOrQ info.trailingPE info.forwardPE
    let week_52_high := info.fiftyTwoWeekHigh
    let week_52_low := info.fiftyTwoWeekLow
    let summary_parts :=
      ["Stock: " ++ pyStrip (pyUpper symbol0)]
      ++ (if pyTruthyQ current_price then ["Price: $" ++ fmt2 (current_price.getD 0)] else [])
      ++ (if pyTruthyZ market_cap then ["Market Cap: $" ++ fmtComma (market_cap.getD 0)] else [])
      ++ (if pyTruthyQ pe_ratio then ["P/E: " ++ fmt2 (pe_ratio.getD 0)] else [])
      ++ (if pyTruthyQ week_52_high && pyTruthyQ week_52_low then
            ["52W Range: $" ++ fmt2 (week_52_low.getD 0) ++ " - $" ++ fmt2 (week_52_high.getD 0)]
          else [])
    { symbol := pyStrip (pyUpper symbol0), current_price := current_price,
      market_cap := market_cap, pe_ratio := pe_ratio, week_52_high := week_52_high,
      week_52_low := week_52_low,
      formatted_summary := String.intercalate " | " summary_parts, error := none }

/-- `get_company_info`: detailed company information. -/
def get_company_info (fetchInfo : String → Except String CompanyQuote)
    (symbol0 : String) : CompanyInfo :=
  match fetchInfo (pyStrip (pyUpper symbol0)) with
  | .error e =>
    { symbol := pyStrip (pyUpper symbol0), name := none, sector := none, industry := none,
      country := none, employees := none,
      business_summary := some ("Error retrieving company info for " ++ pyStrip (pyUpper symbol0)
        ++ ": " ++ e),
      error := some e }
  | .ok info =>
    { symbol := pyStrip (pyUpper symbol0), name := pyOrStr info.longName info.shortName,
      sector := info.sector, industry := info.industry, country := info.country,
      employees := info.fullTimeEmployees,
      business_summary := some (info.longBusinessSummary.getD "No business summary available") }

/-- Worker for `runningMax`: `m` is the maximum seen so far. -/
def runningMaxAux (m : ℚ) : List ℚ → List ℚ
  | [] => []
  | c :: rest => max m c :: runningMaxAux (max m c) rest

/-- pandas `Series.expanding().max()`: element `i` is the maximum of the
first `i + 1` closes. -/
def runningMax : List ℚ → List ℚ
  | [] => []
  | c :: rest => c :: runningMaxAux c rest

/-- pandas `Series.min()` of a close-derived series (the empty case is never
reached on the non-empty branch that uses it). -/
def listMin : List ℚ → ℚ
  | [] => 0
  | c :: rest => rest.foldl min c

/-- The drawdown series `(close - rolling_max) / rolling_max`, pointwise. -/
def drawdowns (closes : List ℚ) : List ℚ :=
  (closes.zip (runningMax closes)).map fun p => (p.1 - p.2) / p.2

/-- The symbol `get_financial_history` parses from its query:
`parts[0].upper() if parts else query.upper()`. -/
def histSymbol (query : String) : String :=
  match pySplit (pyStrip query) with
  | [] => pyUpper query
  | p :: _ => pyUpper p

/-- The period `get_financial_history` parses from its query:
`parts[1].lower() if len(parts) > 1 else "1y"`. -/
def histPeriod (query : String) : String :=
  match pySplit (pyStrip query) with
  | _ :: p :: _ => pyLower p
  | _ => "1y"

/-- The metric computation of `get_financial_history` on a fetched close
series (the non-empty branch).  `cagrF closes` abstracts
`((end/start) ** (1/years) - 1) * 100` and `volF closes` abstracts
`std(pct_change) * sqrt(252) * 100`, the two floating-real computations
(see the header note). -/
def historyMetrics (cagrF volF : List ℚ → ℚ) (symbol period : String)
    (closes : List ℚ) : FinancialHistoryResult :=
  let start_price := closes.headD 0
  let end_price := closes.getLastD 0
  let total_return := (end_price - start_price) / start_price * 100
  let years : ℚ := (closes.length : ℚ) / 252
  let cagr := if 0 < years then cagrF closes else 0
  let volatility := volF closes
  let max_drawdown := listMin (drawdowns closes) * 100
  { symbol := symbol, period := period,
    start_price := some (roundTo 2 start_price),
    end_price := some (roundTo 2 end_price),
    total_return_percent := some (roundTo 2 total_return),
    cagr_percent := some (roundTo 2 cagr),
    volatility_percent := some (roundTo 2 volatility),
    max_drawdown_percent := some (roundTo 2 max_drawdown),
    trading_days := some closes.length,
    formatted_summary := some (symbol ++ " Performance (" ++ period ++ "): Total Return: "
      ++ fmt2 total_return ++ "%, CAGR: " ++ fmt2 cagr ++ "%, Volatility: "
      ++ fmt2 volatility ++ "%, Max Drawdown: " ++ fmt2 max_drawdown ++ "%"),
    error := none }

/-- `get_financial_history`: historical performance and key metrics.
`fetchHistory symbol period` models `yf.Ticker(symbol).history(period)`
reduced to its closing-price column. -/
def get_financial_history (cagrF volF : List ℚ → ℚ)
    (fetchHistory : String → String → Except String (List ℚ))
    (query : String) : FinancialHistoryResult :=
  match fetchHistory (histSymbol query) (histPeriod query) with
  | .error e =>
    { symbol := histSymbol query, period := histPeriod query,
      formatted_summary := some ("Error retrieving financial history: " ++ e),
      error := some e }
  | .ok closes =>
    if closes.isEmpty then
      { symbol := histSymbol query, period := histPeriod query,
        formatted_summary := some ("No historical data available for " ++ histSymbol query),
        error := some "No data available" }
    else historyMetrics cagrF volF (histSymbol query) (histPeriod query) closes

/-- The record built by `calculate_compound_growth`'s `except` clause. -/
def compoundFailure (msg : String) : CompoundGrowthResult :=
  { principal := 0, annual_rate := 0, years := 0, future_value := 0, total_growth := 0,
    total_return_percent := 0, formatted_summary := "",
    error := some ("Calculation error: " ++ msg) }

/-- `calculate_compound_growth`: compound growth and future value.  `powF b e`
abstracts the float power `b ** e` (see the header note); every other step is
exact. -/
def calculate_compound_growth (powF : ℚ → ℚ → ℚ) (query : String) : CompoundGrowthResult :=
  match pySplit (pyStrip query) with
  | p0 :: p1 :: p2 :: _ =>
    match parseFloat p0 with
    | none => compoundFailure (floatError p0)
    | some principal =>
      match parseFloat p1 with
      | none => compoundFailure (floatError p1)
      | some annual_rate =>
        match parseFloat p2 with
        | none => compoundFailure (floatError p2)
        | some years =>
          if years ≤ 0 ∨ principal ≤ 0 then
            compoundFailure "Principal and years must be positive"
          else
            let future_value := principal * powF (1 + annual_rate) years
            let total_growth := future_value - principal
            let total_return_pct := (future_value / principal - 1) * 100
            { principal := principal, annual_rate := annual_rate, years := years,
              future_value := roundTo 2 future_value,
              total_growth := roundTo 2 total_growth,
              total_return_percent := roundTo 2 total_return_pct,
              formatted_summary := "Investment: $" ++ fmtComma2 principal ++ " at "
                ++ fmt2 (annual_rate * 100) ++ "% for " ++ pyStr years
                ++ " years → Future Value: $" ++ fmtComma2 future_value
                ++ " (Total Return: " ++ fmt2 total_return_pct ++ "%)" }
  | _ => compoundFailure "Query must contain principal, annual_rate, and years"

/-- The record built by `calculate_financial_ratio`'s `except` clause. -/
def ratioFailure (msg : String) : FinancialRatioResult :=
  { numerator := 0, denominator := 0, ratio_type := "error",
    error := some ("Calculation error: " ++ msg) }

/-- The `ratio_info` table: display name and threshold-based context for a
ratio type; unknown types fall back to the `generic` entry. -/
def ratioInfo (t : String) (v : ℚ) : String × String :=
  if t = "pe" then
    ("Price-to-Earnings Ratio", if v > 25 then "High" else if v > 15 then "Moderate" else "Low")
  else if t = "debt_to_equity" then
    ("Debt-to-Equity Ratio", if v > 1 then "High leverage" else "Conservative")
  else if t = "current" then
    ("Current Ratio", if v > 1.5 then "Good liquidity" else "Potential concern")
  else if t = "roe" then
    ("Return on Equity", if v > 0.15 then "Strong" else if v > 0.10 then "Average" else "Weak")
  else ("Financial Ratio", "Custom calculation")

/-- `calculate_financial_ratio`: calculate and interpret financial ratios.
Pure arithmetic and lookup; no abstraction needed. -/
def calculate_financial_ratio (query : String) : FinancialRatioResult :=
  match pySplit (pyStrip query) with
  | p0 :: p1 :: rest =>
    match parseFloat p0 with
    | none => ratioFailure (floatError p0)
    | some numerator =>
      match parseFloat p1 with
      | none => ratioFailure (floatError p1)
      | some denominator =>
        let ratio_type :=
          match rest with
          | p2 :: _ => pyLower p2
          | [] => "generic"
        if denominator = 0 then ratioFailure "Denominator cannot be zero"
        else
          let ratio_value := numerator / denominator
          let di := ratioInfo ratio_type ratio_value
          { numerator := numerator, denominator := denominator, ratio_type := ratio_type,
            ratio_value := some (roundTo 4 ratio_value),
            description := some di.1,
            interpretation := some (di.1 ++ ": " ++ fmt2 ratio_value),
            context := some di.2,
            formatted_summary := some (di.1 ++ ": " ++ fmt2 ratio_value ++ " - " ++ di.2) }
  | _ => ratioFailure "Query must contain at least numerator and denominator"

/-- Exact value of `b ** e` for a nonnegative integral float exponent `e`;
used to instantiate the abstract power function at the spec's inputs. -/
def qpow (b e : ℚ) : ℚ := b ^ e.num.toNat

/-! ## Helper lemmas about rounding and the drawdown computation -/

theorem roundTo_nonneg (n : ℕ) {q : ℚ} (h : 0 ≤ q) : 0 ≤ roundTo n q := by
  have h10 : (0:ℚ) < 10 ^ n := by positivity
  have hmul : 0 ≤ q * 10 ^ n := mul_nonneg h h10.le
  have hr : (0:ℤ) ≤ round (q * 10 ^ n) := by
    rw [round_eq]
    exact Int.le_floor.mpr (by push_cast; linarith)
  unfold roundTo
  exact div_nonneg (by exact_mod_cast hr) h10.le

theorem roundTo_nonpos (n : ℕ) {q : ℚ} (h : q ≤ 0) : roundTo n q ≤ 0 := by
  have h10 : (0:ℚ) < 10 ^ n := by positivity
  have hmul : q * 10 ^ n ≤ 0 := by
    have := mul_le_mul_of_nonneg_right h h10.le
    simpa using this
  have hr : round (q * 10 ^ n) ≤ 0 := by
    rw [round_eq]
    have hlt : ⌊q * 10 ^ n + 1 / 2⌋ < 1 := Int.floor_lt.mpr (by push_cast; linarith)
    omega
  unfold roundTo
  exact div_nonpos_iff.mpr (Or.inr ⟨by exact_mod_cast hr, h10.le⟩)

theorem foldl_min_le_init (l : List ℚ) : ∀ a : ℚ, l.foldl min a ≤ a := by
  induction l with
  | nil => intro a; simp
  | cons x xs ih =>
    intro a
    calc (x :: xs).foldl min a = xs.foldl min (min a x) := by simp [List.foldl_cons]
    _ ≤ min a x := ih _
    _ ≤ a := min_le_left _ _

theorem listMin_nonpos {l : List ℚ} (h : ∀ x ∈ l, x ≤ 0) : listMin l ≤ 0 := by
  cases l with
  | nil => simp [listMin]
  | cons c rest =>
    have h1 : rest.foldl min c ≤ c := foldl_min_le_init rest c
    have h2 : c ≤ 0 := h c (by simp)
    calc listMin (c :: rest) = rest.foldl min c := rfl
    _ ≤ 0 := le_trans h1 h2

theorem zip_runningMaxAux_le (l : List ℚ) :
    ∀ m : ℚ, 0 < m → (∀ c ∈ l, 0 < c) →
      ∀ p ∈ l.zip (runningMaxAux m l), p.1 ≤ p.2 ∧ 0 < p.2 := by
  induction l with
  | nil => intro m _ _ p hp; simp [runningMaxAux] at hp
  | cons c rest ih =>
    intro m hm hl p hp
    simp only [runningMaxAux, List.zip_cons_cons, List.mem_cons] at hp
    rcases hp with rfl | hp
    · exact ⟨le_max_right m c, lt_max_iff.mpr (Or.inl hm)⟩
    · exact ih (max m c) (lt_max_iff.mpr (Or.inl hm))
        (fun x hx => hl x (List.mem_cons_of_mem _ hx)) p hp

theorem drawdowns_nonpos {closes : List ℚ} (h : ∀ c ∈ closes, 0 < c) :
    ∀ x ∈ drawdowns closes, x ≤ 0 := by
  intro x hx
  unfold drawdowns at hx
  rcases List.mem_map.mp hx with ⟨p, hp, rfl⟩
  have key : p.1 ≤ p.2 ∧ 0 < p.2 := by
    cases closes with
    | nil => simp [runningMax] at hp
    | cons c rest =>
      have hc : 0 < c := h c (by simp)
      simp only [runningMax, List.zip_cons_cons, List.mem_cons] at hp
      rcases hp with rfl | hp
      · exact ⟨le_refl c, hc⟩
      · exact zip_runningMaxAux_le rest c hc
          (fun y hy => h y (List.mem_cons_of_mem _ hy)) p hp
  exact div_nonpos_iff.mpr (Or.inr ⟨sub_nonpos.mpr key.1, key.2.le⟩)

/-! ## Claims -/

/-- C1, amended (the claim as stated fails, see `c1_counterexample`): every
tool is a total function, and every failure path yields a record with
`error` populated; the three data-fetching tools additionally describe the
failure in their summary field, but `calculate_compound_growth`'s failure
record carries an empty summary and `calculate_financial_ratio`'s failure
record leaves the summary unset (the description lives in `error` alone). -/
theorem c1_error_totality
    (fq : String → Except String QuoteInfo) (fc : String → Except String CompanyQuote)
    (cagrF volF : List ℚ → ℚ) (fh : String → String → Except String (List ℚ))
    (powF : ℚ → ℚ → ℚ) (s q : String) :
    ((get_stock_price fq s).error = none ∨
      ∃ e, (get_stock_price fq s).error = some e ∧
        (get_stock_price fq s).formatted_summary =
          "Error retrieving stock data for " ++ pyStrip (pyUpper s) ++ ": " ++ e) ∧
    ((get_company_info fc s).error = none ∨
      ∃ e, (get_company_info fc s).error = some e ∧
        (get_company_info fc s).business_summary =
          some ("Error retrieving company info for " ++ pyStrip (pyUpper s) ++ ": " ++ e)) ∧
    ((get_financial_history cagrF volF fh q).error = none ∨
      ∃ e, (get_financial_history cagrF volF fh q).error = some e ∧
        ((get_financial_history cagrF volF fh q).formatted_summary =
            some ("Error retrieving financial history: " ++ e) ∨
          (get_financial_history cagrF volF fh q).formatted_summary =
            some ("No historical data available for " ++ histSymbol q))) ∧
    ((calculate_compound_growth powF q).error = none ∨
      ∃ e, (calculate_compound_growth powF q).error = some ("Calculation error: " ++ e) ∧
        (calculate_compound_growth powF q).formatted_summary = "") ∧
    ((calculate_financial_ratio q).error = none ∨
      ∃ e, (calculate_financial_ratio q).error = some ("Calculation error: " ++ e) ∧
        (calculate_financial_ratio q).formatted_summary = none) := by
  refine ⟨?_, ?_, ?_, ?_, ?_⟩
  · unfold get_stock_price
    cases fq (pyStrip (pyUpper s)) with
    | error e => exact Or.inr ⟨e, rfl, rfl⟩
    | ok info => exact Or.inl rfl
  · unfold get_company_info
    cases fc (pyStrip (pyUpper s)) with
    | error e => exact Or.inr ⟨e, rfl, rfl⟩
    | ok info => exact Or.inl rfl
  · unfold get_financial_history
    cases fh (histSymbol q) (histPeriod q) with
    | error e => exact Or.inr ⟨e, rfl, Or.inl rfl⟩
    | ok closes =>
      cases closes with
      | nil => exact Or.inr ⟨"No data available", rfl, Or.inr rfl⟩
      | cons c rest => exact Or.inl rfl
  · unfold calculate_compound_growth
    repeat' split
    all_goals first
      | exact Or.inl rfl
      | exact Or.inr ⟨_, rfl, rfl⟩
  · unfold calculate_financial_ratio
    repeat' split
    all_goals first
      | exact Or.inl rfl
      | exact Or.inr ⟨_, rfl, rfl⟩

/-- C1 counterexample: on an empty query both pure tools populate `error`,
yet `calculate_compound_growth` returns an empty summary string and
`calculate_financial_ratio` returns no summary at all — not a
human-readable summary describing the failure. -/
theorem c1_counterexample :
    (calculate_compound_growth qpow "").error.isSome = true ∧
    (calculate_compound_growth qpow "").formatted_summary = "" ∧
    (calculate_financial_ratio "").error.isSome = true ∧
    (calculate_financial_ratio "").formatted_summary = none :=
  ⟨rfl, rfl, rfl, rfl⟩

/-- C2, amended (the claim as stated fails, see `c2_counterexample`): for
every input, `get_stock_price` returns `error = none` iff the upstream
fetch succeeded without raising — whether or not the returned quote mapping
contained any price field. -/
theorem c2_error_iff_fetch_ok (fq : String → Except String QuoteInfo) (s : String) :
    (get_stock_price fq s).error = none ↔
      ∃ info, fq (pyStrip (pyUpper s)) = Except.ok info := by
  unfold get_stock_price
  cases hfq : fq (pyStrip (pyUpper s)) with
  | error e => simp
  | ok info => simp

/-- C2 counterexample: a successful fetch whose quote mapping contains no
price field at all (every field absent) still yields `error = none`,
refuting the claimed equivalence between `error = none` and the presence of
a price field. -/
theorem c2_counterexample :
    (get_stock_price (fun _ => Except.ok {}) "AAPL").error = none ∧
    (get_stock_price (fun _ => Except.ok {}) "AAPL").current_price = none :=
  ⟨rfl, rfl⟩

/-- C3: on "10000 0.07 10" the compound-growth tool returns
future_value = 19671.51, total_growth = 9671.51, total_return_percent =
96.72 and no error, given that the power abstraction takes its exact
integral-exponent value (1.07)^10 there. -/
theorem c3_compound_example (powF : ℚ → ℚ → ℚ)
    (hpow : powF (1 + 0.07) 10 = (1.07 : ℚ) ^ (10 : ℕ)) :
    (calculate_compound_growth powF "10000 0.07 10").future_value = 19671.51 ∧
    (calculate_compound_growth powF "10000 0.07 10").total_growth = 9671.51 ∧
    (calculate_compound_growth powF "10000 0.07 10").total_return_percent = 96.72 ∧
    (calculate_compound_growth powF "10000 0.07 10").error = none := by
  refine ⟨?_, ?_, ?_, rfl⟩
  · show roundTo 2 (10000 * powF (1 + 0.07) 10) = 19671.51
    rw [hpow]; decide
  · show roundTo 2 (10000 * powF (1 + 0.07) 10 - 10000) = 9671.51
    rw [hpow]; decide
  · show roundTo 2 ((10000 * powF (1 + 0.07) 10 / 10000 - 1) * 100) = 96.72
    rw [hpow]; decide

/-- C3 witness: the theorem applied at the executable power function
`qpow`, which agrees with the exact value at the integral exponent. -/
theorem c3_compound_example_witness :
    (calculate_compound_growth qpow "10000 0.07 10").future_value = 19671.51 ∧
    (calculate_compound_growth qpow "10000 0.07 10").total_growth = 9671.51 ∧
    (calculate_compound_growth qpow "10000 0.07 10").total_return_percent = 96.72 ∧
    (calculate_compound_growth qpow "10000 0.07 10").error = none :=
  c3_compound_example qpow (by decide)

/-- C4: every context threshold of the ratio table is strict: for `pe`,
"High" iff 25 < value, "Moderate" iff 15 < value ≤ 25, "Low" iff
value ≤ 15 (so exactly 15 — e.g. from input "82.50 5.50 pe" — is "Low");
for `debt_to_equity` the boundary 1, for `current` 1.5, and for `roe`
0.10 / 0.15 behave the same way. -/
theorem c4_strict_thresholds :
    (∀ v : ℚ,
      ((ratioInfo "pe" v).2 = "High" ↔ 25 < v) ∧
      ((ratioInfo "pe" v).2 = "Moderate" ↔ 15 < v ∧ v ≤ 25) ∧
      ((ratioInfo "pe" v).2 = "Low" ↔ v ≤ 15)) ∧
    (∀ v : ℚ,
      ((ratioInfo "debt_to_equity" v).2 = "High leverage" ↔ 1 < v) ∧
      ((ratioInfo "debt_to_equity" v).2 = "Conservative" ↔ v ≤ 1)) ∧
    (∀ v : ℚ,
      ((ratioInfo "current" v).2 = "Good liquidity" ↔ 1.5 < v) ∧
      ((ratioInfo "current" v).2 = "Potential concern" ↔ v ≤ 1.5)) ∧
    (∀ v : ℚ,
      ((ratioInfo "roe" v).2 = "Strong" ↔ 0.15 < v) ∧
      ((ratioInfo "roe" v).2 = "Average" ↔ 0.10 < v ∧ v ≤ 0.15) ∧
      ((ratioInfo "roe" v).2 = "Weak" ↔ v ≤ 0.10)) ∧
    ((calculate_financial_ratio "82.50 5.50 pe").ratio_value = some 15 ∧
      (calculate_financial_ratio "82.50 5.50 pe").context = some "Low") := by
  refine ⟨fun v => ?_, fun v => ?_, fun v => ?_, fun v => ?_, by decide, by decide⟩
  · by_cases h25 : 25 < v
    · have h15 : (15:ℚ) < v := by linarith
      simp [ratioInfo, h25, h15, not_le.mpr h25, not_le.mpr h15]
    · by_cases h15 : 15 < v
      · simp [ratioInfo, h25, h15, not_lt.mp h25, not_le.mpr h15]
      · simp [ratioInfo, h25, h15, not_lt.mp h15]
  · by_cases h1 : 1 < v
    · simp [ratioInfo, h1, not_le.mpr h1]
    · simp [ratioInfo, h1, not_lt.mp h1]
  · by_cases h : (1.5:ℚ) < v
    · simp [ratioInfo, h, not_le.mpr h]
    · simp [ratioInfo, h, not_lt.mp h]
  · by_cases h15 : (0.15:ℚ) < v
    · have h10 : (0.10:ℚ) < v := by linarith
      simp [ratioInfo, h15, h10, not_le.mpr h15, not_le.mpr h10]
    · by_cases h10 : (0.10:ℚ) < v
      · simp [ratioInfo, h15, h10, not_lt.mp h15, not_le.mpr h10]
      · simp [ratioInfo, h15, h10, not_lt.mp h10]

/-- C5, amended (the claim's right-to-left direction fails under 2-decimal
rounding, see `c5_counterexample`): for every non-empty all-positive close
series, the reported max_drawdown_percent is ≤ 0, and whenever the last
close is at least the first close the reported total_return_percent is
≥ 0. -/
theorem c5_drawdown_return_sign (cagrF volF : List ℚ → ℚ)
    (fh : String → String → Except String (List ℚ)) (q : String) (closes : List ℚ)
    (hfh : fh (histSymbol q) (histPeriod q) = Except.ok closes)
    (hne : closes ≠ []) (hpos : ∀ c ∈ closes, 0 < c) :
    (∃ m, (get_financial_history cagrF volF fh q).max_drawdown_percent = some m ∧ m ≤ 0) ∧
    (closes.headD 0 ≤ closes.getLastD 0 →
      ∃ t, (get_financial_history cagrF volF fh q).total_return_percent = some t ∧ 0 ≤ t) := by
  have hempty : closes.isEmpty = false := by
    cases closes with
    | nil => exact absurd rfl hne
    | cons a l => rfl
  have hmain : get_financial_history cagrF volF fh q =
      historyMetrics cagrF volF (histSymbol q) (histPeriod q) closes := by
    simp only [get_financial_history, hfh, hempty, Bool.false_eq_true, if_false]
  rw [hmain]
  constructor
  · refine ⟨roundTo 2 (listMin (drawdowns closes) * 100), rfl, ?_⟩
    have h1 : listMin (drawdowns closes) ≤ 0 := listMin_nonpos (drawdowns_nonpos hpos)
    have h2 : listMin (drawdowns closes) * 100 ≤ 0 := by nlinarith
    exact roundTo_nonpos 2 h2
  · intro hle
    refine ⟨roundTo 2 ((closes.getLastD 0 - closes.headD 0) / closes.headD 0 * 100), rfl, ?_⟩
    have hstart : 0 < closes.headD 0 := by
      cases closes with
      | nil => exact absurd rfl hne
      | cons a l => simpa using hpos a (by simp)
    have hdiv : 0 ≤ (closes.getLastD 0 - closes.headD 0) / closes.headD 0 :=
      div_nonneg (sub_nonneg.mpr hle) hstart.le
    have : 0 ≤ (closes.getLastD 0 - closes.headD 0) / closes.headD 0 * 100 := by nlinarith
    exact roundTo_nonneg 2 this

/-- C5 witness: the amended theorem applied to the series [1, 2]. -/
theorem c5_drawdown_return_sign_witness :
    (∃ m, (get_financial_history (fun _ => 0) (fun _ => 0)
        (fun _ _ => Except.ok [1, 2]) "AAPL").max_drawdown_percent = some m ∧ m ≤ 0) ∧
    (([(1:ℚ), 2]).headD 0 ≤ ([(1:ℚ), 2]).getLastD 0 →
      ∃ t, (get_financial_history (fun _ => 0) (fun _ => 0)
        (fun _ _ => Except.ok [1, 2]) "AAPL").total_return_percent = some t ∧ 0 ≤ t) :=
  c5_drawdown_return_sign (fun _ => 0) (fun _ => 0) (fun _ _ => Except.ok [1, 2]) "AAPL"
    [1, 2] rfl (by decide) (by decide)

/-- C5 counterexample: on the positive two-point series
[1000.0051, 1000.0049] the tiny negative return rounds to 0, so the
reported total_return_percent is ≥ 0 although the end close (and the
reported end_price) is strictly below the start close (and start_price):
the claimed equivalence between the sign of total_return_percent and the
comparison of end price with start price fails. -/
theorem c5_counterexample :
    (0:ℚ) < 10000051/10000 ∧ (0:ℚ) < 10000049/10000 ∧
    (10000049:ℚ)/10000 < 10000051/10000 ∧
    0 ≤ ((get_financial_history (fun _ => 0) (fun _ => 0)
      (fun _ _ => Except.ok [10000051/10000, 10000049/10000]) "TEST").total_return_percent.getD 1) ∧
    ((get_financial_history (fun _ => 0) (fun _ => 0)
      (fun _ _ => Except.ok [10000051/10000, 10000049/10000]) "TEST").end_price.getD 0 <
      (get_financial_history (fun _ => 0) (fun _ => 0)
      (fun _ _ => Except.ok [10000051/10000, 10000049/10000]) "TEST").start_price.getD 0) := by
  decide

/-- C6: `calculate_compound_growth` fails — returning the all-zero record
with a "Calculation error:"-prefixed message — whenever fewer than 3
whitespace-separated tokens are present, or the parsed principal or years
is non-positive; in particular on "0 0.07 10" and "10000 0.07 0". -/
theorem c6_compound_validation (powF : ℚ → ℚ → ℚ) (q : String) :
    ((pySplit (pyStrip q)).length < 3 →
      calculate_compound_growth powF q =
        compoundFailure "Query must contain principal, annual_rate, and years") ∧
    (∀ p0 p1 p2 rest a b c, pySplit (pyStrip q) = p0 :: p1 :: p2 :: rest →
      parseFloat p0 = some a → parseFloat p1 = some b → parseFloat p2 = some c →
      a ≤ 0 ∨ c ≤ 0 →
      calculate_compound_growth powF q =
        compoundFailure "Principal and years must be positive") ∧
    calculate_compound_growth powF "0 0.07 10" =
      compoundFailure "Principal and years must be positive" ∧
    calculate_compound_growth powF "10000 0.07 0" =
      compoundFailure "Principal and years must be positive" := by
  refine ⟨?_, ?_, rfl, rfl⟩
  · intro hlen
    unfold calculate_compound_growth
    cases hs : pySplit (pyStrip q) with
    | nil => rfl
    | cons p0 t0 =>
      cases t0 with
      | nil => rfl
      | cons p1 t1 =>
        cases t1 with
        | nil => rfl
        | cons p2 rest =>
          rw [hs] at hlen
          simp at hlen
          omega
  · intro p0 p1 p2 rest a b c hs hp0 hp1 hp2 hv
    simp only [calculate_compound_growth, hs, hp0, hp1, hp2]
    rw [if_pos (by tauto)]

/-- C7: `calculate_financial_ratio` rejects a zero denominator and inputs
with fewer than 2 tokens, returning the zeroed record with
ratio_type = "error"; and on success the denominator is nonzero with
ratio_value the 4-decimal rounding of numerator/denominator. -/
theorem c7_ratio_validation (q : String) :
    ((pySplit (pyStrip q)).length < 2 →
      calculate_financial_ratio q =
        ratioFailure "Query must contain at least numerator and denominator") ∧
    (∀ p0 p1 rest a, pySplit (pyStrip q) = p0 :: p1 :: rest →
      parseFloat p0 = some a → parseFloat p1 = some 0 →
      calculate_financial_ratio q = ratioFailure "Denominator cannot be zero") ∧
    calculate_financial_ratio "5 0 pe" = ratioFailure "Denominator cannot be zero" ∧
    ((calculate_financial_ratio q).error = none →
      (calculate_financial_ratio q).denominator ≠ 0 ∧
      (calculate_financial_ratio q).ratio_value =
        some (roundTo 4 ((calculate_financial_ratio q).numerator /
          (calculate_financial_ratio q).denominator))) := by
  refine ⟨?_, ?_, rfl, ?_⟩
  · intro hlen
    unfold calculate_financial_ratio
    cases hs : pySplit (pyStrip q) with
    | nil => rfl
    | cons p0 t0 =>
      cases t0 with
      | nil => rfl
      | cons p1 rest =>
        rw [hs] at hlen
        simp at hlen
        omega
  · intro p0 p1 rest a hs hp0 hp1
    simp only [calculate_financial_ratio, hs, hp0, hp1]
    simp
  · intro herr
    rcases hs : pySplit (pyStrip q) with _ | ⟨p0, _ | ⟨p1, rest⟩⟩
    · simp only [calculate_financial_ratio, hs] at herr
      simp [ratioFailure] at herr
    · simp only [calculate_financial_ratio, hs] at herr
      simp [ratioFailure] at herr
    · rcases hp0 : parseFloat p0 with _ | a
      · simp only [calculate_financial_ratio, hs, hp0] at herr
        simp [ratioFailure] at herr
      · rcases hp1 : parseFloat p1 with _ | b
        · simp only [calculate_financial_ratio, hs, hp0, hp1] at herr
          simp [ratioFailure] at herr
        · by_cases hb : b = 0
          · simp only [calculate_financial_ratio, hs, hp0, hp1, if_pos hb] at herr
            simp [ratioFailure] at herr
          · constructor
            · simp only [calculate_financial_ratio, hs, hp0, hp1, if_neg hb]
              exact hb
            · simp only [calculate_financial_ratio, hs, hp0, hp1, if_neg hb]

/-- C8: when the fetched series is empty, `get_financial_history` returns
exactly the record with error = "No data available", a summary saying no
data is available for the symbol, and every numeric field unset. -/
theorem c8_empty_history (cagrF volF : List ℚ → ℚ)
    (fh : String → String → Except String (List ℚ)) (q : String)
    (hfh : fh (histSymbol q) (histPeriod q) = Except.ok []) :
    get_financial_history cagrF volF fh q =
      { symbol := histSymbol q, period := histPeriod q,
        formatted_summary := some ("No historical data available for " ++ histSymbol q),
        error := some "No data available" } := by
  unfold get_financial_history
  rw [hfh]
  rfl

/-- C8 witness: an upstream returning an empty series for "AAPL 1y". -/
theorem c8_empty_history_witness :
    get_financial_history (fun _ => 0) (fun _ => 0) (fun _ _ => Except.ok []) "AAPL 1y" =
      { symbol := "AAPL", period := "1y",
        formatted_summary := some "No historical data available for AAPL",
        error := some "No data available" } :=
  (c8_empty_history (fun _ => 0) (fun _ => 0) (fun _ _ => Except.ok []) "AAPL 1y" rfl).trans
    (by decide)

/-- C9: whenever the fetch succeeds, the symbol field of both
`get_stock_price` and `get_company_info` is the upper-cased,
whitespace-trimmed input. -/
theorem c9_symbol_normalized (fq : String → Except String QuoteInfo)
    (fc : String → Except String CompanyQuote) (s : String)
    (info : QuoteInfo) (cinfo : CompanyQuote)
    (hq : fq (pyStrip (pyUpper s)) = Except.ok info)
    (hc : fc (pyStrip (pyUpper s)) = Except.ok cinfo) :
    (get_stock_price fq s).symbol = pyStrip (pyUpper s) ∧
    (get_company_info fc s).symbol = pyStrip (pyUpper s) := by
  constructor
  · unfold get_stock_price
    rw [hq]
  · unfold get_company_info
    rw [hc]

/-- C9 witness: a lower-case input with surrounding whitespace is reported
as the trimmed upper-case symbol by both tools. -/
theorem c9_symbol_normalized_witness :
    (get_stock_price (fun _ => Except.ok {}) "  aapl ").symbol = "AAPL" ∧
    (get_company_info (fun _ => Except.ok {}) "  aapl ").symbol = "AAPL" := by
  have h := c9_symbol_normalized (fun _ => Except.ok {}) (fun _ => Except.ok {})
    "  aapl " {} {} rfl rfl
  have e : pyStrip (pyUpper "  aapl ") = "AAPL" := by decide
  exact ⟨h.1.trans e, h.2.trans e⟩

/-- C10: a single positive close is not treated as "insufficient data":
the result carries no error, zero total return, zero max drawdown, one
trading day, and equal start and end prices. -/
theorem c10_single_point (cagrF volF : List ℚ → ℚ)
    (fh : String → String → Except String (List ℚ)) (q : String) (c : ℚ)
    (hfh : fh (histSymbol q) (histPeriod q) = Except.ok [c]) (hc : 0 < c) :
    (get_financial_history cagrF volF fh q).error = none ∧
    (get_financial_history cagrF volF fh q).total_return_percent = some 0 ∧
    (get_financial_history cagrF volF fh q).max_drawdown_percent = some 0 ∧
    (get_financial_history cagrF volF fh q).trading_days = some 1 ∧
    (get_financial_history cagrF volF fh q).start_price =
      (get_financial_history cagrF volF fh q).end_price := by
  have hmain : get_financial_history cagrF volF fh q =
      historyMetrics cagrF volF (histSymbol q) (histPeriod q) [c] := by
    unfold get_financial_history
    rw [hfh]
    rfl
  rw [hmain]
  refine ⟨rfl, ?_, ?_, rfl, rfl⟩
  · show some (roundTo 2 ((c - c) / c * 100)) = some 0
    rw [sub_self, zero_div, zero_mul]
    simp [roundTo]
  · show some (roundTo 2 (listMin (drawdowns [c]) * 100)) = some 0
    have hd : drawdowns [c] = [(c - c) / c] := rfl
    rw [hd, sub_self, zero_div]
    show some (roundTo 2 ((0:ℚ) * 100)) = some 0
    rw [zero_mul]
    simp [roundTo]

/-- C10 witness: the theorem applied to the one-point series [5]. -/
theorem c10_single_point_witness :
    (get_financial_history (fun _ => 0) (fun _ => 0)
      (fun _ _ => Except.ok [5]) "AAPL").error = none ∧
    (get_financial_history (fun _ => 0) (fun _ => 0)
      (fun _ _ => Except.ok [5]) "AAPL").total_return_percent = some 0 ∧
    (get_financial_history (fun _ => 0) (fun _ => 0)
      (fun _ _ => Except.ok [5]) "AAPL").max_drawdown_percent = some 0 ∧
    (get_financial_history (fun _ => 0) (fun _ => 0)
      (fun _ _ => Except.ok [5]) "AAPL").trading_days = some 1 ∧
    (get_financial_history (fun _ => 0) (fun _ => 0)
      (fun _ _ => Except.ok [5]) "AAPL").start_price =
      (get_financial_history (fun _ => 0) (fun _ => 0)
        (fun _ _ => Except.ok [5]) "AAPL").end_price :=
  c10_single_point (fun _ => 0) (fun _ => 0) (fun _ _ => Except.ok [5]) "AAPL" 5 rfl
    (by norm_num)
